import Mathlib

/-!
Shallow embedding of `psql_helper.py` (class `PostgreSQL`, class
`PostgreSQLConnection`) and `storage_service.py` (classes `StorageService`,
`DBStorageService`) from the `psql_library` repository, together with
theorems settling the specification claims about the connection pool,
the request-scoped connection handle, and the statement-execution helper.

Modelling conventions:
* A psycopg2 connection is a `Conn`: an identity plus the behaviour of its
  `reset()` and `close()` driver calls (`none` = the call succeeds,
  `some e` = the call raises an error of class `e`).  `ErrClass.operational`
  is `psycopg2.OperationalError`; `ErrClass.other` is any other error class.
* The mutable state touched by the Python code is a `PGState`:
  `pool` is `self._pool` with the TOP OF THE STACK FIRST (Python appends and
  pops at the end of the list; the Lean list is that list reversed, so
  Python `pop()` is `head` and Python `append` is `cons`);
  `appPg` is the attribute `self.app._postgresql` written by the
  `connection` property and read by `commit`;
  `gPg` is the attribute `flask.g._postgresql` read by `teardown`;
  `nextId` numbers freshly created connections; `log` records every driver
  call issued, MOST RECENT FIRST.
* `Env` assigns driver behaviour to the connection ids that
  `psycopg2.connect` has not created yet; creating a connection never fails
  in this model (no claim concerns connect failures).
* Python functions that can raise return `Except ErrClass α × PGState`:
  the state component holds the mutations performed before the raise.
-/

/-- Error classes distinguished by the source: `psycopg2.OperationalError`
versus every other error class. -/
inductive ErrClass where
  | operational
  | other
deriving DecidableEq, Repr

/-- A psycopg2 connection: its identity and the outcome of its driver
calls (`none` = success, `some e` = raises an error of class `e`). -/
structure Conn where
  id : Nat
  resetErr : Option ErrClass
  closeErr : Option ErrClass
deriving DecidableEq, Repr

/-- One driver call issued over the psycopg2 boundary, tagged with the id
of the connection it was issued on. -/
inductive DriverOp where
  | connect (id : Nat)
  | reset (id : Nat)
  | close (id : Nat)
  | commit (id : Nat)
  | cursor (id : Nat) (realDict : Bool)
  | execute (id : Nat) (sql : String)
  | rollback (id : Nat)
deriving DecidableEq, Repr

/-- Driver behaviour of connections yet to be created: for each id, the
outcome of `reset()` and of `close()` on that connection. -/
def Env : Type := Nat → Option ErrClass × Option ErrClass

/-- The connection `psycopg2.connect(..., connection_factory=PostgreSQLConnection)`
returns when it is asked for id `i` under environment `env`. -/
def newConn (env : Env) (i : Nat) : Conn :=
  { id := i, resetErr := (env i).1, closeErr := (env i).2 }

/-- The mutable state of one `PostgreSQL` helper instance plus the Flask
attributes the source reads and writes (`self.app._postgresql`,
`flask.g._postgresql`).  `pool` keeps the top of the stack first; `log`
keeps the most recent driver call first. -/
structure PGState where
  pool : List Conn
  poolSize : Nat
  appPg : Option Conn
  gPg : Option Conn
  nextId : Nat
  log : List DriverOp
deriving DecidableEq, Repr

/-- State of a freshly constructed `PostgreSQL(app, pool_size)` helper:
empty pool, nothing bound, no driver call issued yet. -/
def initState (size : Nat) : PGState :=
  { pool := [], poolSize := size, appPg := none, gPg := none,
    nextId := 0, log := [] }

/-- Issue `c.reset()`: record the call and report its outcome. -/
def doReset (c : Conn) (s : PGState) : Except ErrClass Unit × PGState :=
  let s' := { s with log := DriverOp.reset c.id :: s.log }
  match c.resetErr with
  | none => (Except.ok (), s')
  | some e => (Except.error e, s')

/-- Issue `c.close()`: record the call and report its outcome. -/
def doClose (c : Conn) (s : PGState) : Except ErrClass Unit × PGState :=
  let s' := { s with log := DriverOp.close c.id :: s.log }
  match c.closeErr with
  | none => (Except.ok (), s')
  | some e => (Except.error e, s')

/-- The loop `for c in self._pool: try: c.close() except OperationalError: pass`
in `PostgreSQL._connect`: close each connection in turn, swallowing
`OperationalError`; any other error class aborts the loop and propagates. -/
def closeLoop : List Conn → PGState → Except ErrClass Unit × PGState
  | [], s => (Except.ok (), s)
  | c :: cs, s =>
    match doClose c s with
    | (Except.ok (), s') => closeLoop cs s'
    | (Except.error ErrClass.operational, s') => closeLoop cs s'
    | (Except.error ErrClass.other, s') => (Except.error ErrClass.other, s')

namespace PostgreSQL

/-- Embedding of `PostgreSQL._new_connection`: read the configuration and call
`psycopg2.connect` with `connection_factory=PostgreSQLConnection`. -/
def newConnection (env : Env) (s : PGState) : Conn × PGState :=
  let c := newConn env s.nextId
  (c, { s with nextId := s.nextId + 1,
               log := DriverOp.connect c.id :: s.log })

/-- Embedding of `PostgreSQL._connect`: if the pool is non-empty, pop the top connection
and test it with `c.reset()`.  On success return it.  On
`OperationalError`, close it and every remaining pooled connection
(swallowing `OperationalError` from each `close()`), empty the pool and
fall through to `_new_connection`.  Any other error class from `reset()`
propagates.  If the pool was empty, create a new connection. -/
def connect (env : Env) (s : PGState) : Except ErrClass Conn × PGState :=
  match s.pool with
  | [] =>
    let (c, s') := newConnection env s
    (Except.ok c, s')
  | c :: rest =>
    let s₁ := { s with pool := rest }
    match doReset c s₁ with
    | (Except.ok (), s₂) => (Except.ok c, s₂)
    | (Except.error ErrClass.other, s₂) => (Except.error ErrClass.other, s₂)
    | (Except.error ErrClass.operational, s₂) =>
      match doClose c s₂ with
      | (Except.error ErrClass.other, s₃) => (Except.error ErrClass.other, s₃)
      | (Except.ok (), s₃) | (Except.error ErrClass.operational, s₃) =>
        match closeLoop rest s₃ with
        | (Except.error e, s₄) => (Except.error e, s₄)
        | (Except.ok (), s₄) =>
          let s₅ := { s₄ with pool := [] }
          let (c', s₆) := newConnection env s₅
          (Except.ok c', s₆)

/-- The `connection` property: under `self.app.app_context()`, if
`self.app` has no `_postgresql` attribute, bind `self._connect()` to it;
return the bound connection. -/
def connection (env : Env) (s : PGState) : Except ErrClass Conn × PGState :=
  match s.appPg with
  | some c => (Except.ok c, s)
  | none =>
    match connect env s with
    | (Except.ok c, s') => (Except.ok c, { s' with appPg := some c })
    | (Except.error e, s') => (Except.error e, s')

/-- Embedding of `PostgreSQL.commit(response)`: under `self.app.app_context()`, if
`self.app` has a `_postgresql` attribute, call `commit()` on it; return
`response` unmodified. -/
def commit {α : Type} (s : PGState) (response : α) : α × PGState :=
  match s.appPg with
  | none => (response, s)
  | some c => (response, { s with log := DriverOp.commit c.id :: s.log })

/-- Embedding of `PostgreSQL.teardown(exception)`: if `flask.g` has a `_postgresql`
attribute, delete it; then, under the lock, if `len(self._pool) >=
self.pool_size` close the connection (the `close()` call is not guarded),
otherwise `reset()` it and append it to the pool (the `reset()` call is
not guarded either). -/
def teardown (s : PGState) : Except ErrClass Unit × PGState :=
  match s.gPg with
  | none => (Except.ok (), s)
  | some c =>
    let s₁ := { s with gPg := none }
    if s₁.poolSize ≤ s₁.pool.length then
      doClose c s₁
    else
      match doReset c s₁ with
      | (Except.ok (), s₂) => (Except.ok (), { s₂ with pool := c :: s₂.pool })
      | (Except.error e, s₂) => (Except.error e, s₂)

end PostgreSQL

/-- The kind of cursor psycopg2 produces: `RealDictCursor` (dict-style
rows) when `cursor_factory=psycopg2.extras.RealDictCursor` is passed,
otherwise the plain tuple cursor. -/
inductive CursorKind where
  | realDict
  | plain
deriving DecidableEq, Repr

/-- A cursor as seen by the model: the id of the connection it was opened
on and the kind of rows it yields. -/
structure Cursor where
  connId : Nat
  kind : CursorKind
deriving DecidableEq, Repr

namespace PostgreSQLConnection

/-- Embedding of `PostgreSQLConnection.cursor(real_dict_cursor=False)`: pass
`cursor_factory=RealDictCursor` exactly when `real_dict_cursor` is truthy. -/
def cursorKind (real_dict_cursor : Bool) : CursorKind :=
  if real_dict_cursor then CursorKind.realDict else CursorKind.plain

end PostgreSQLConnection

namespace PostgreSQL

/-- The argument `PostgreSQL.cursor` forwards to
`PostgreSQLConnection.cursor`: the expression
`real_dict_cursor if real_dict_cursor else dict_cursor`. -/
def cursorArg (real_dict_cursor : Bool) (dict_cursor : Bool) : Bool :=
  if real_dict_cursor then real_dict_cursor else dict_cursor

/-- Embedding of `PostgreSQL.cursor(real_dict_cursor=False, dict_cursor=True)`: obtain
the per-request connection via the `connection` property and open a cursor
on it, forwarding `cursorArg`. -/
def cursor (env : Env) (real_dict_cursor : Bool) (dict_cursor : Bool)
    (s : PGState) : Except ErrClass Cursor × PGState :=
  match connection env s with
  | (Except.error e, s') => (Except.error e, s')
  | (Except.ok c, s') =>
    let rdc := cursorArg real_dict_cursor dict_cursor
    (Except.ok { connId := c.id, kind := PostgreSQLConnection.cursorKind rdc },
     { s' with log := DriverOp.cursor c.id rdc :: s'.log })

end PostgreSQL

/-- Errors surfaced by `DBStorageService.__execute_sql` to its caller:
a driver error that escapes the `try` without matching the handler, or the
`NameError` raised when the handler clause `except DatabaseError` evaluates
the name `DatabaseError`, which `storage_service.py` never imports. -/
inductive StorErr where
  | driver (e : ErrClass)
  | nameError
deriving DecidableEq, Repr

namespace StorageService

/-- Embedding of `StorageService.rollback`: the body of the method is `pass` —
`DBStorageService` does not override it, so calling it performs no driver
operation and leaves every piece of state unchanged. -/
def rollback (s : PGState) : PGState := s

end StorageService

namespace DBStorageService

/-- Embedding of `DBStorageService.__execute_sql`: replace `?` with `%s`, open a cursor
via `self._psql.cursor()` (default arguments), execute the statement
(`execErr` says whether `cursor.execute` raises a `DatabaseError`), and on
a database-error-class exception reach the clause `except DatabaseError as
err` — whose name lookup fails with `NameError`, so the handler body
(logging, `self.rollback()`, re-raise) never runs. -/
def executeSql (env : Env) (execErr : Bool) (sql : String) (s : PGState) :
    Except StorErr Unit × PGState :=
  let sql' := sql.replace "?" "%s"
  match PostgreSQL.cursor env false true s with
  | (Except.error ErrClass.operational, s') => (Except.error StorErr.nameError, s')
  | (Except.error ErrClass.other, s') =>
    (Except.error (StorErr.driver ErrClass.other), s')
  | (Except.ok cur, s') =>
    let s₂ := { s' with log := DriverOp.execute cur.connId sql' :: s'.log }
    if execErr then (Except.error StorErr.nameError, s₂)
    else (Except.ok (), s₂)

end DBStorageService

/-- One request context driven by the hooks `init_app` registers: the
request body touches `PostgreSQL.connection`, then `after_request` runs
`PostgreSQL.commit`, then `teardown_appcontext` runs `PostgreSQL.teardown`.
Returns the state after the context ends. -/
def runRequest (env : Env) (s : PGState) : PGState :=
  let s₁ := (PostgreSQL.connection env s).2
  let s₂ := (PostgreSQL.commit s₁ (0 : Nat)).2
  (PostgreSQL.teardown s₂).2

/-- An Acquire (`PostgreSQL._connect`) or a Release (`PostgreSQL.teardown`
run while `flask.g._postgresql` holds `c`). -/
inductive PoolOp where
  | acquire
  | release (c : Conn)

/-- Effect of one pool operation on the state: `acquire` runs `_connect`;
`release c` runs `teardown` on a state whose `flask.g._postgresql` is `c`. -/
def stepOp (env : Env) (s : PGState) : PoolOp → PGState
  | PoolOp.acquire => (PostgreSQL.connect env s).2
  | PoolOp.release c => (PostgreSQL.teardown { s with gPg := some c }).2

/-- Number of `close()` driver calls in a log. -/
def countCloses (log : List DriverOp) : Nat :=
  (log.filter fun op => match op with
    | DriverOp.close _ => true
    | _ => false).length

/-- Number of `psycopg2.connect` calls in a log. -/
def countConnects (log : List DriverOp) : Nat :=
  (log.filter fun op => match op with
    | DriverOp.connect _ => true
    | _ => false).length

/-- The all-benign environment: every connection's `reset()` and `close()`
succeed. -/
def env0 : Env := fun _ => (none, none)

lemma doReset_snd (c : Conn) (s : PGState) :
    (doReset c s).2 = { s with log := DriverOp.reset c.id :: s.log } := by
  unfold doReset
  cases c.resetErr <;> rfl

lemma doClose_snd (c : Conn) (s : PGState) :
    (doClose c s).2 = { s with log := DriverOp.close c.id :: s.log } := by
  unfold doClose
  cases c.closeErr <;> rfl

/-- The close loop of `_connect` touches only the driver log: every other
field of the state survives, and the old log embeds in the new one. -/
lemma closeLoop_snd (cs : List Conn) (s : PGState) :
    (closeLoop cs s).2 = { s with log := ((closeLoop cs s).2).log } ∧
    ∀ op ∈ s.log, op ∈ ((closeLoop cs s).2).log := by
  induction cs generalizing s with
  | nil => exact ⟨rfl, fun op h => h⟩
  | cons c cs ih =>
    cases h : c.closeErr with
    | none =>
      have heq : closeLoop (c :: cs) s
          = closeLoop cs { s with log := DriverOp.close c.id :: s.log } := by
        simp [closeLoop, doClose, h]
      rw [heq]
      obtain ⟨ih1, ih2⟩ := ih { s with log := DriverOp.close c.id :: s.log }
      exact ⟨ih1, fun op hop => ih2 op (List.mem_cons_of_mem _ hop)⟩
    | some e =>
      cases e with
      | operational =>
        have heq : closeLoop (c :: cs) s
            = closeLoop cs { s with log := DriverOp.close c.id :: s.log } := by
          simp [closeLoop, doClose, h]
        rw [heq]
        obtain ⟨ih1, ih2⟩ := ih { s with log := DriverOp.close c.id :: s.log }
        exact ⟨ih1, fun op hop => ih2 op (List.mem_cons_of_mem _ hop)⟩
      | other =>
        have heq : closeLoop (c :: cs) s
            = (Except.error ErrClass.other,
               { s with log := DriverOp.close c.id :: s.log }) := by
          simp [closeLoop, doClose, h]
        rw [heq]
        exact ⟨rfl, fun op hop => List.mem_cons_of_mem _ hop⟩

/-- When no pooled connection's `close()` raises an error class other than
`OperationalError`, the close loop finishes normally and has issued a
`close()` on every connection it visited. -/
lemma closeLoop_ok (cs : List Conn) (s : PGState)
    (h : ∀ d ∈ cs, d.closeErr ≠ some ErrClass.other) :
    (closeLoop cs s).1 = Except.ok () ∧
    ∀ d ∈ cs, DriverOp.close d.id ∈ ((closeLoop cs s).2).log := by
  induction cs generalizing s with
  | nil => exact ⟨rfl, by simp⟩
  | cons c cs ih =>
    have hc : c.closeErr ≠ some ErrClass.other := h c (by simp)
    have hcs : ∀ d ∈ cs, d.closeErr ≠ some ErrClass.other :=
      fun d hd => h d (List.mem_cons_of_mem _ hd)
    have step : ∀ s' : PGState, closeLoop (c :: cs) s' =
        closeLoop cs { s' with log := DriverOp.close c.id :: s'.log } := by
      intro s'
      cases h' : c.closeErr with
      | none => simp [closeLoop, doClose, h']
      | some e =>
        cases e with
        | operational => simp [closeLoop, doClose, h']
        | other => exact absurd h' hc
    rw [step s]
    obtain ⟨ih1, ih2⟩ := ih { s with log := DriverOp.close c.id :: s.log } hcs
    refine ⟨ih1, fun d hd => ?_⟩
    rcases List.mem_cons.mp hd with h1 | h2
    · subst h1
      exact (closeLoop_snd cs _).2 _ (by simp)
    · exact ih2 d h2


lemma doReset_eq (c : Conn) (s : PGState) :
    doReset c s =
      ((match c.resetErr with
        | none => Except.ok ()
        | some e => Except.error e),
       { s with log := DriverOp.reset c.id :: s.log }) := by
  unfold doReset
  cases c.resetErr <;> rfl

lemma doClose_eq (c : Conn) (s : PGState) :
    doClose c s =
      ((match c.closeErr with
        | none => Except.ok ()
        | some e => Except.error e),
       { s with log := DriverOp.close c.id :: s.log }) := by
  unfold doClose
  cases c.closeErr <;> rfl

/-- Acquire never grows the idle list: `_connect` pops, pops-and-clears,
or leaves the pool alone, and it never touches `pool_size`. -/
lemma connect_pool_le (env : Env) (s : PGState) :
    ((PostgreSQL.connect env s).2).pool.length ≤ s.pool.length ∧
    ((PostgreSQL.connect env s).2).poolSize = s.poolSize := by
  unfold PostgreSQL.connect
  cases hp : s.pool with
  | nil =>
    simp [PostgreSQL.newConnection, hp]
  | cons c rest =>
    dsimp only
    rw [doReset_eq]
    cases hr : c.resetErr with
    | none =>
      dsimp only
      exact ⟨by simp [Nat.le_succ], rfl⟩
    | some e =>
      cases e with
      | other =>
        dsimp only
        exact ⟨by simp [Nat.le_succ], rfl⟩
      | operational =>
        dsimp only
        rw [doClose_eq]
        cases hc : c.closeErr with
        | some e' =>
          cases e' with
          | other =>
            dsimp only
            exact ⟨by simp [Nat.le_succ], rfl⟩
          | operational =>
            dsimp only
            obtain ⟨u, t, hcl⟩ :
                ∃ u t, closeLoop rest
                  { pool := rest, poolSize := s.poolSize, appPg := s.appPg,
                    gPg := s.gPg, nextId := s.nextId,
                    log := DriverOp.close c.id :: DriverOp.reset c.id :: s.log }
                  = (u, t) := ⟨_, _, rfl⟩
            have ht := (closeLoop_snd rest
              { pool := rest, poolSize := s.poolSize, appPg := s.appPg,
                gPg := s.gPg, nextId := s.nextId,
                log := DriverOp.close c.id :: DriverOp.reset c.id :: s.log }).1
            rw [hcl] at ht
            dsimp only at ht
            rw [hcl]
            cases u with
            | error e'' =>
              dsimp only
              rw [ht]
              exact ⟨by simp [Nat.le_succ], rfl⟩
            | ok u' =>
              dsimp only
              rw [ht]
              exact ⟨by simp [PostgreSQL.newConnection],
                     by simp [PostgreSQL.newConnection]⟩
        | none =>
          dsimp only
          obtain ⟨u, t, hcl⟩ :
              ∃ u t, closeLoop rest
                { pool := rest, poolSize := s.poolSize, appPg := s.appPg,
                  gPg := s.gPg, nextId := s.nextId,
                  log := DriverOp.close c.id :: DriverOp.reset c.id :: s.log }
                = (u, t) := ⟨_, _, rfl⟩
          have ht := (closeLoop_snd rest
            { pool := rest, poolSize := s.poolSize, appPg := s.appPg,
              gPg := s.gPg, nextId := s.nextId,
              log := DriverOp.close c.id :: DriverOp.reset c.id :: s.log }).1
          rw [hcl] at ht
          dsimp only at ht
          rw [hcl]
          cases u with
          | error e'' =>
            dsimp only
            rw [ht]
            exact ⟨by simp [Nat.le_succ], rfl⟩
          | ok u' =>
            dsimp only
            rw [ht]
            exact ⟨by simp [PostgreSQL.newConnection],
                   by simp [PostgreSQL.newConnection]⟩

/-- Release keeps the idle list within `pool_size`: `teardown` appends only
when the pool is strictly below capacity, and never touches `pool_size`. -/
lemma teardown_pool_le (s : PGState) (h : s.pool.length ≤ s.poolSize) :
    ((PostgreSQL.teardown s).2).pool.length ≤ s.poolSize ∧
    ((PostgreSQL.teardown s).2).poolSize = s.poolSize := by
  unfold PostgreSQL.teardown
  cases hg : s.gPg with
  | none => exact ⟨h, rfl⟩
  | some c =>
    dsimp only
    by_cases hif : s.poolSize ≤ s.pool.length
    · rw [if_pos hif, doClose_eq]
      exact ⟨h, rfl⟩
    · rw [if_neg hif, doReset_eq]
      cases hr : c.resetErr with
      | none =>
        dsimp only
        exact ⟨by simp only [List.length_cons]; omega, rfl⟩
      | some e =>
        dsimp only
        exact ⟨h, rfl⟩

/-- The invariant behind claim C1: the recorded `pool_size` is the
configured one and the idle list is within it. -/
def PoolInv (size : Nat) (s : PGState) : Prop :=
  s.poolSize = size ∧ s.pool.length ≤ size

lemma stepOp_inv (env : Env) (size : Nat) (s : PGState) (op : PoolOp)
    (h : PoolInv size s) : PoolInv size (stepOp env s op) := by
  obtain ⟨h1, h2⟩ := h
  cases op with
  | acquire =>
    obtain ⟨hl, hs⟩ := connect_pool_le env s
    exact ⟨hs.trans h1, le_trans hl (h1 ▸ h2)⟩
  | release c =>
    have h2' : ({ s with gPg := some c } : PGState).pool.length
        ≤ ({ s with gPg := some c } : PGState).poolSize := by
      show s.pool.length ≤ s.poolSize
      omega
    obtain ⟨hl, hs⟩ := teardown_pool_le { s with gPg := some c } h2'
    exact ⟨hs.trans h1, le_trans hl (le_of_eq h1)⟩

lemma foldl_stepOp_inv (env : Env) (size : Nat) (ops : List PoolOp) :
    ∀ s : PGState, PoolInv size s → PoolInv size (ops.foldl (stepOp env) s) := by
  induction ops with
  | nil => exact fun s h => h
  | cons op ops ih => exact fun s h => ih _ (stepOp_inv env size s op h)

/-- Claim C1: starting from an empty pool, no sequence of Acquire
(`PostgreSQL._connect`) and Release (`PostgreSQL.teardown`) operations can
make the idle list `self._pool` longer than `self.pool_size`. -/
theorem pool_never_exceeds_pool_size (env : Env) (size : Nat) (ops : List PoolOp) :
    (ops.foldl (stepOp env) (initState size)).pool.length ≤ size :=
  (foldl_stepOp_inv env size ops (initState size) ⟨rfl, Nat.zero_le _⟩).2

/-- Claim C4: when `teardown` releases a bound connection `c` whose
`reset()` succeeds, it closes `c` and leaves the idle list unchanged if the
list is at or above `pool_size`, and otherwise resets `c` and pushes it on
top of the idle list. -/
theorem teardown_release_rule (s : PGState) (c : Conn) (hb : s.gPg = some c)
    (hr : c.resetErr = none) :
    (s.poolSize ≤ s.pool.length →
      ((PostgreSQL.teardown s).2).pool = s.pool ∧
      ((PostgreSQL.teardown s).2).log = DriverOp.close c.id :: s.log) ∧
    (s.pool.length < s.poolSize →
      ((PostgreSQL.teardown s).2).pool = c :: s.pool ∧
      ((PostgreSQL.teardown s).2).log = DriverOp.reset c.id :: s.log) := by
  unfold PostgreSQL.teardown
  rw [hb]
  dsimp only
  constructor
  · intro hif
    rw [if_pos hif, doClose_eq]
    exact ⟨rfl, rfl⟩
  · intro hif
    rw [if_neg (by omega), doReset_eq, hr]
    exact ⟨rfl, rfl⟩

/-- Witness for `teardown_release_rule`: a pool of size 1 holding nothing,
a bound connection with id 5; releasing pushes it on top. -/
theorem teardown_release_rule_witness :
    ((PostgreSQL.teardown ⟨[], 1, none, some ⟨5, none, none⟩, 6, []⟩).2).pool
      = [⟨5, none, none⟩] ∧
    ((PostgreSQL.teardown ⟨[], 1, none, some ⟨5, none, none⟩, 6, []⟩).2).log
      = [DriverOp.reset 5] :=
  (teardown_release_rule ⟨[], 1, none, some ⟨5, none, none⟩, 6, []⟩
    ⟨5, none, none⟩ rfl rfl).2 (by decide)

/-- Claim C7: with a connection bound to `flask.g._postgresql`, the first
`teardown` unbinds it and performs exactly one driver call (a close or a
reset-and-push); the second `teardown` finds the handle unbound and changes
nothing — no pool mutation, no driver call. -/
theorem teardown_twice_releases_once (s : PGState) (c : Conn)
    (hb : s.gPg = some c) (hr : c.resetErr = none) (hc : c.closeErr = none) :
    ((PostgreSQL.teardown s).2).gPg = none ∧
    ((PostgreSQL.teardown s).2).log.length = s.log.length + 1 ∧
    PostgreSQL.teardown ((PostgreSQL.teardown s).2)
      = (Except.ok (), (PostgreSQL.teardown s).2) := by
  unfold PostgreSQL.teardown
  rw [hb]
  dsimp only
  by_cases hif : s.poolSize ≤ s.pool.length
  · rw [if_pos hif, doClose_eq, hc]
    exact ⟨rfl, rfl, rfl⟩
  · rw [if_neg hif, doReset_eq, hr]
    exact ⟨rfl, rfl, rfl⟩

/-- Witness for `teardown_twice_releases_once`: pool of size 1, a bound
connection with id 3. -/
theorem teardown_twice_releases_once_witness :
    ((PostgreSQL.teardown ⟨[], 1, none, some ⟨3, none, none⟩, 4, []⟩).2).gPg = none ∧
    ((PostgreSQL.teardown ⟨[], 1, none, some ⟨3, none, none⟩, 4, []⟩).2).log.length = 1 ∧
    PostgreSQL.teardown ((PostgreSQL.teardown ⟨[], 1, none, some ⟨3, none, none⟩, 4, []⟩).2)
      = (Except.ok (), (PostgreSQL.teardown ⟨[], 1, none, some ⟨3, none, none⟩, 4, []⟩).2) :=
  teardown_twice_releases_once ⟨[], 1, none, some ⟨3, none, none⟩, 4, []⟩
    ⟨3, none, none⟩ rfl rfl rfl

lemma newConnection_eq (env : Env) (s : PGState) :
    PostgreSQL.newConnection env s =
      (newConn env s.nextId,
       { s with nextId := s.nextId + 1,
                log := DriverOp.connect s.nextId :: s.log }) := rfl

/-- Core of the pool-invalidation path of `_connect`: a popped connection
whose `reset()` raises `OperationalError`, with no `close()` raising an
error class other than `OperationalError`, leads to a `close()` on every
other idle connection, an empty pool, and a freshly created connection. -/
lemma connect_unhealthy_core (env : Env) (s : PGState) (c : Conn) (rest : List Conn)
    (hpool : s.pool = c :: rest)
    (hres : c.resetErr = some ErrClass.operational)
    (hclose : ∀ d ∈ s.pool, d.closeErr ≠ some ErrClass.other) :
    (PostgreSQL.connect env s).1 = Except.ok (newConn env s.nextId) ∧
    ((PostgreSQL.connect env s).2).pool = [] ∧
    ∀ d ∈ rest, DriverOp.close d.id ∈ ((PostgreSQL.connect env s).2).log := by
  have hcHead : c.closeErr ≠ some ErrClass.other :=
    hclose c (by rw [hpool]; exact List.mem_cons_self _ _)
  have hrest : ∀ d ∈ rest, d.closeErr ≠ some ErrClass.other :=
    fun d hd => hclose d (by rw [hpool]; exact List.mem_cons_of_mem _ hd)
  unfold PostgreSQL.connect
  rw [hpool]
  dsimp only
  rw [doReset_eq, hres]
  dsimp only
  rw [doClose_eq]
  cases hc : c.closeErr with
  | some e =>
    cases e with
    | other => exact absurd hc hcHead
    | operational =>
      dsimp only
      obtain ⟨u, t, hcl⟩ :
          ∃ u t, closeLoop rest
            { pool := rest, poolSize := s.poolSize, appPg := s.appPg,
              gPg := s.gPg, nextId := s.nextId,
              log := DriverOp.close c.id :: DriverOp.reset c.id :: s.log }
            = (u, t) := ⟨_, _, rfl⟩
      obtain ⟨hok, hmem⟩ := closeLoop_ok rest _ hrest
      rw [hcl] at hok hmem
      dsimp only at hok hmem
      subst hok
      have ht := (closeLoop_snd rest
        { pool := rest, poolSize := s.poolSize, appPg := s.appPg,
          gPg := s.gPg, nextId := s.nextId,
          log := DriverOp.close c.id :: DriverOp.reset c.id :: s.log }).1
      rw [hcl] at ht
      dsimp only at ht
      rw [hcl]
      dsimp only
      rw [newConnection_eq]
      dsimp only
      rw [ht]
      exact ⟨rfl, rfl, fun d hd => List.mem_cons_of_mem _ (hmem d hd)⟩
  | none =>
    dsimp only
    obtain ⟨u, t, hcl⟩ :
        ∃ u t, closeLoop rest
          { pool := rest, poolSize := s.poolSize, appPg := s.appPg,
            gPg := s.gPg, nextId := s.nextId,
            log := DriverOp.close c.id :: DriverOp.reset c.id :: s.log }
          = (u, t) := ⟨_, _, rfl⟩
    obtain ⟨hok, hmem⟩ := closeLoop_ok rest _ hrest
    rw [hcl] at hok hmem
    dsimp only at hok hmem
    subst hok
    have ht := (closeLoop_snd rest
      { pool := rest, poolSize := s.poolSize, appPg := s.appPg,
        gPg := s.gPg, nextId := s.nextId,
        log := DriverOp.close c.id :: DriverOp.reset c.id :: s.log }).1
    rw [hcl] at ht
    dsimp only at ht
    rw [hcl]
    dsimp only
    rw [newConnection_eq]
    dsimp only
    rw [ht]
    exact ⟨rfl, rfl, fun d hd => List.mem_cons_of_mem _ (hmem d hd)⟩

/-- Claim C3: when Acquire pops a connection whose health check `reset()`
raises `OperationalError` (and no `close()` raises an unexpected class),
every other idle connection gets a `close()`, the idle list ends empty and
the caller receives a freshly created connection; a health-check error of
any other class propagates to the caller. -/
theorem connect_health_classification (env : Env) (s : PGState) (c : Conn)
    (rest : List Conn) (hpool : s.pool = c :: rest) :
    (c.resetErr = some ErrClass.operational →
      (∀ d ∈ s.pool, d.closeErr ≠ some ErrClass.other) →
      (PostgreSQL.connect env s).1 = Except.ok (newConn env s.nextId) ∧
      ((PostgreSQL.connect env s).2).pool = [] ∧
      ∀ d ∈ rest, DriverOp.close d.id ∈ ((PostgreSQL.connect env s).2).log) ∧
    (c.resetErr = some ErrClass.other →
      (PostgreSQL.connect env s).1 = Except.error ErrClass.other) := by
  constructor
  · exact fun h1 h2 => connect_unhealthy_core env s c rest hpool h1 h2
  · intro h1
    unfold PostgreSQL.connect
    rw [hpool]
    dsimp only
    rw [doReset_eq, h1]

/-- Witness for `connect_health_classification`: a two-element pool whose
top connection (id 2) fails its health check with `OperationalError`; the
other idle connection (id 1) is closed, the pool is emptied and connection
id 3 is freshly created. -/
theorem connect_health_classification_witness :
    (PostgreSQL.connect env0
        ⟨[⟨2, some ErrClass.operational, none⟩, ⟨1, none, none⟩], 2, none, none, 3, []⟩).1
      = Except.ok (newConn env0 3) ∧
    ((PostgreSQL.connect env0
        ⟨[⟨2, some ErrClass.operational, none⟩, ⟨1, none, none⟩], 2, none, none, 3, []⟩).2).pool
      = [] ∧
    ∀ d ∈ [(⟨1, none, none⟩ : Conn)], DriverOp.close d.id ∈
      ((PostgreSQL.connect env0
        ⟨[⟨2, some ErrClass.operational, none⟩, ⟨1, none, none⟩], 2, none, none, 3, []⟩).2).log :=
  (connect_health_classification env0
      ⟨[⟨2, some ErrClass.operational, none⟩, ⟨1, none, none⟩], 2, none, none, 3, []⟩
      ⟨2, some ErrClass.operational, none⟩ [⟨1, none, none⟩] rfl).1 rfl (by decide)

/-- Counterexample to claim C6: a connection released by `teardown` while
the pool is at capacity is closed by a bare `c.close()` — the
`OperationalError` it raises here propagates to `teardown`'s caller
instead of being swallowed. -/
theorem release_close_error_propagates :
    (PostgreSQL.teardown
        ⟨[⟨1, none, none⟩], 1, none, some ⟨2, none, some ErrClass.operational⟩, 3, []⟩).1
      = Except.error ErrClass.operational := rfl

/-- Claim C6 as amended: during pool invalidation in Acquire, `close()`
errors of the operational-failure class are swallowed and the acquisition
still succeeds; but a `close()` error during Release at capacity
propagates to the caller of Release. -/
theorem close_error_policy (env : Env) (s : PGState) (c : Conn)
    (rest : List Conn) (hpool : s.pool = c :: rest)
    (hres : c.resetErr = some ErrClass.operational)
    (hclose : ∀ d ∈ s.pool, d.closeErr = none ∨ d.closeErr = some ErrClass.operational) :
    (∃ c' : Conn, (PostgreSQL.connect env s).1 = Except.ok c') ∧
    ∀ t : PGState, ∀ c' : Conn, ∀ e : ErrClass, t.gPg = some c' →
      t.poolSize ≤ t.pool.length → c'.closeErr = some e →
      (PostgreSQL.teardown t).1 = Except.error e := by
  constructor
  · have hclose' : ∀ d ∈ s.pool, d.closeErr ≠ some ErrClass.other := by
      intro d hd
      rcases hclose d hd with h | h <;> simp [h]
    exact ⟨newConn env s.nextId,
      (connect_unhealthy_core env s c rest hpool hres hclose').1⟩
  · intro t c' e hb hif hce
    unfold PostgreSQL.teardown
    rw [hb]
    dsimp only
    rw [if_pos hif, doClose_eq, hce]

/-- Witness for `close_error_policy`: invalidation with both closes raising
`OperationalError` still yields a fresh connection, while a release at
capacity whose close raises `OperationalError` surfaces that error. -/
theorem close_error_policy_witness :
    (∃ c' : Conn, (PostgreSQL.connect env0
        ⟨[⟨2, some ErrClass.operational, some ErrClass.operational⟩,
          ⟨1, none, some ErrClass.operational⟩], 2, none, none, 3, []⟩).1
      = Except.ok c') ∧
    (PostgreSQL.teardown
        ⟨[⟨1, none, none⟩], 1, none, some ⟨4, none, some ErrClass.operational⟩, 5, []⟩).1
      = Except.error ErrClass.operational := by
  have h := close_error_policy env0
    ⟨[⟨2, some ErrClass.operational, some ErrClass.operational⟩,
      ⟨1, none, some ErrClass.operational⟩], 2, none, none, 3, []⟩
    ⟨2, some ErrClass.operational, some ErrClass.operational⟩
    [⟨1, none, some ErrClass.operational⟩] rfl rfl (by decide)
  exact ⟨h.1, h.2 _ ⟨4, none, some ErrClass.operational⟩ ErrClass.operational
    rfl (by decide) rfl⟩

/-- Claim C2 (refuted by the code): a request that binds a connection
through the `connection` property stores it in `self.app._postgresql`,
but `teardown` looks for `flask.g._postgresql`; running `teardown` at
context end is therefore a complete no-op — the bound connection is
neither pushed onto the idle list nor closed, contradicting the class's
own docstring that the teardown hook "disconnects any active connection". -/
theorem teardown_misses_property_bound_connection :
    PostgreSQL.teardown (PostgreSQL.connection env0 (initState 2)).2
      = (Except.ok (), (PostgreSQL.connection env0 (initState 2)).2) ∧
    ((PostgreSQL.connection env0 (initState 2)).2).appPg
      = some { id := 0, resetErr := none, closeErr := none } ∧
    ((PostgreSQL.connection env0 (initState 2)).2).pool = [] ∧
    countCloses ((PostgreSQL.connection env0 (initState 2)).2).log = 0 :=
  ⟨rfl, rfl, rfl, rfl⟩

/-- Claim C5 (refuted by the code): when `cursor.execute` raises a
`DatabaseError`, the clause `except DatabaseError as err` evaluates the
name `DatabaseError`, which `storage_service.py` never imports, so a
`NameError` surfaces instead; the handler body never runs, and in
particular no rollback is issued on the connection — the driver log holds
only the connect, the cursor and the failed execute.  Independently,
`StorageService.rollback` is the stub `pass`, the identity on the state. -/
theorem execute_sql_database_error_issues_no_rollback :
    (DBStorageService.executeSql env0 true "SELECT ?" (initState 2)).1
      = Except.error StorErr.nameError ∧
    ((DBStorageService.executeSql env0 true "SELECT ?" (initState 2)).2).log
      = [DriverOp.execute 0 ("SELECT ?".replace "?" "%s"),
         DriverOp.cursor 0 true, DriverOp.connect 0] ∧
    ∀ s : PGState, StorageService.rollback s = s :=
  ⟨rfl, rfl, fun _ => rfl⟩

/-- Claim C8 (refuted by the code): `commit` tests
`hasattr(self.app, '_postgresql')`, and `teardown` never removes that
attribute; so in a second request context that never touches the
`connection` property, the `after_request` commit hook still issues a
driver `commit()` on the connection bound by the previous request.  The
response is returned unmodified. -/
theorem commit_touches_stale_connection_from_prior_request :
    (PostgreSQL.commit
        ((PostgreSQL.teardown (PostgreSQL.connection env0 (initState 2)).2).2)
        (7 : Nat)).1 = 7 ∧
    ((PostgreSQL.commit
        ((PostgreSQL.teardown (PostgreSQL.connection env0 (initState 2)).2).2)
        (7 : Nat)).2).log
      = DriverOp.commit 0 ::
        ((PostgreSQL.teardown (PostgreSQL.connection env0 (initState 2)).2).2).log :=
  ⟨rfl, rfl⟩

/-- Claim C9 (refuted by the code): three sequential request contexts that
each touch the `connection` property and end with `teardown` leave the
idle list empty (not holding 2 connections), close no connection (not
one), and create exactly one connection which all three requests share. -/
theorem three_requests_leave_pool_empty :
    (runRequest env0 (runRequest env0 (runRequest env0 (initState 2)))).pool.length
      = 0 ∧
    countCloses (runRequest env0 (runRequest env0 (runRequest env0
      (initState 2)))).log = 0 ∧
    countConnects (runRequest env0 (runRequest env0 (runRequest env0
      (initState 2)))).log = 1 :=
  ⟨rfl, rfl, rfl⟩

/-- Claim C10: with the default arguments (`real_dict_cursor=False`,
`dict_cursor=True`), `PostgreSQL.cursor` forwards the truthy
`dict_cursor` as the `real_dict_cursor` flag of
`PostgreSQLConnection.cursor`, producing a `RealDictCursor`; a plain tuple
cursor arises exactly when both flags are falsy. -/
theorem cursor_default_is_real_dict :
    PostgreSQLConnection.cursorKind (PostgreSQL.cursorArg false true)
      = CursorKind.realDict ∧
    (PostgreSQL.cursor env0 false true (initState 2)).1
      = Except.ok { connId := 0, kind := CursorKind.realDict } ∧
    ∀ r d : Bool,
      PostgreSQLConnection.cursorKind (PostgreSQL.cursorArg r d) = CursorKind.plain
        ↔ (r = false ∧ d = false) :=
  ⟨rfl, rfl, by decide⟩
